import Mathlib

/-!
# Verification of the eo-api execution-orchestration core

A shallow embedding, in Lean 4, of the orchestration core of the `eoapi`
package: the durable state store (`eoapi/state_store.py`), the job ledger
(`eoapi/jobs.py`), the schedule registry (`eoapi/schedules.py`), the
schedule/workflow endpoints (`eoapi/endpoints/schedules.py`,
`eoapi/endpoints/workflows.py`), the scheduler loop
(`eoapi/scheduler_runtime.py`) and the Prefect orchestration adapter
(`eoapi/orchestration/prefect.py`).

Python dicts are embedded as insertion-ordered association lists, JSON
values as the inductive type `Jv`, environment variables and the file
system as explicit state records, and fallible operations as `Except` /
`Option` results.  Machine-level details that the verified properties do
not depend on (timestamp rendering, uuid generation) are modelled by a
monotone counter.
-/

namespace EoApi

/-- JSON values, as produced and consumed by `json.dumps` / `json.loads`.
Objects are insertion-ordered association lists, matching Python dicts. -/
inductive Jv where
  | jnull : Jv
  | jbool : Bool → Jv
  | jnum : Int → Jv
  | jstr : String → Jv
  | jarr : List Jv → Jv
  | jobj : List (String × Jv) → Jv

/-- Embeds `str.lower()` (over the character list, so that concrete instances
reduce by `decide`). -/
def strLower (s : String) : String := ⟨s.data.map Char.toLower⟩

/-- Embeds `str.upper()`. -/
def strUpper (s : String) : String := ⟨s.data.map Char.toUpper⟩

/-- Embeds `str.strip()`. -/
def strTrim (s : String) : String :=
  ⟨((s.data.dropWhile Char.isWhitespace).reverse.dropWhile
      Char.isWhitespace).reverse⟩

/-- Embeds `isinstance(value, dict)` on an embedded JSON value. -/
def Jv.isObj : Jv → Bool
  | .jobj _ => true
  | _ => false

/-- Embeds `d.get(key)` on an embedded JSON object (first binding wins, as in a
Python dict, whose keys are unique); `none` on a non-object. -/
def Jv.getKey : Jv → String → Option Jv
  | .jobj entries, key => (entries.find? fun kv => kv.1 = key).map Prod.snd
  | _, _ => none

/-- Python truthiness (`bool(value)`) of an embedded JSON value. -/
def Jv.truthy : Jv → Bool
  | .jnull => false
  | .jbool b => b
  | .jnum n => n != 0
  | .jstr s => s ≠ ""
  | .jarr xs => !xs.isEmpty
  | .jobj entries => !entries.isEmpty

/-! ## Durable state store (`eoapi/state_store.py`) -/

/-- The environment variables read by the state store:
`EOAPI_STATE_PERSIST` (`none` = unset). -/
structure StoreEnv where
  persistRaw : Option String
deriving DecidableEq, Repr

/-- Embeds `_state_enabled()`: the raw value of `EOAPI_STATE_PERSIST` (default
`"true"`), stripped and lower-cased, must not be one of
`0/false/no/off`. -/
def state_enabled (env : StoreEnv) : Bool :=
  let raw := strLower (strTrim (env.persistRaw.getD "true"))
  !(raw = "0" || raw = "false" || raw = "no" || raw = "off")

/-- The observable states of one state file `<name>.json`:
missing; unreadable (`OSError` from `read_text`); undecodable (bytes that
are not valid UTF-8, on which `read_text(encoding="utf-8")` raises
`UnicodeDecodeError` — a `ValueError`, not an `OSError` and not a
`json.JSONDecodeError`); decodable text that is not valid JSON
(`json.JSONDecodeError`); or holding a parsed JSON document. -/
inductive FileState where
  | absent : FileState
  | unreadable : FileState
  | undecodable : FileState
  | corrupt : FileState
  | stored : Jv → FileState

/-- The file system as the state store sees it: one `FileState` per state
map name, whether the state directory can be created/written
(`mkdir` raising `OSError`), and whether the temp-file write and atomic
rename succeed (`OSError` from `NamedTemporaryFile`/`replace`). -/
structure FS where
  files : String → FileState
  dirWritable : Bool
  writeOk : Bool

/-- Embeds `load_state_map(name)`: with persistence disabled or a missing
file, return the empty map; the `try` block catches only
`(OSError, json.JSONDecodeError)`, so an unreadable file or corrupt JSON
text returns the empty map, but undecodable (non-UTF-8) content raises
`UnicodeDecodeError` to the caller — the `.error` case; a non-dict
top-level payload returns the empty map; otherwise keep only the
dict-valued entries (keys of a parsed JSON object are already strings,
so `str(key)` is the identity). -/
def load_state_map (env : StoreEnv) (fs : FS) (name : String) :
    Except Unit (List (String × Jv)) :=
  if !state_enabled env then .ok []
  else
    match fs.files name with
    | .absent => .ok []
    | .unreadable => .ok []
    | .undecodable => .error ()
    | .corrupt => .ok []
    | .stored payload =>
        match payload with
        | .jobj entries => .ok (entries.filter fun kv => kv.2.isObj)
        | _ => .ok []

/-- Embeds `save_state_map(name, payload)`: a no-op when persistence is disabled,
when the state directory cannot be created, or when the temp-file write /
atomic rename fails; otherwise atomically replace `<name>.json` with the
serialized payload. -/
def save_state_map (env : StoreEnv) (fs : FS) (name : String)
    (payload : List (String × Jv)) : FS :=
  if !state_enabled env then fs
  else if !fs.dirWritable then fs
  else if !fs.writeOk then fs
  else
    { fs with
      files := fun n => if n = name then .stored (.jobj payload) else fs.files n }

/-! ## Job ledger (`eoapi/jobs.py`)

Job ids (uuid4 in the source) are modelled as opaque fresh identifiers
drawn from a monotone counter, and the wall clock (`_now_iso()`, an ISO
string that orders consistently with real time) as a monotone `Nat`
counter.  The module-level `_JOBS` dict plus the id/clock supply form the
`Ledger` state threaded through each operation. -/

/-- The `execution` provenance block of a job record. -/
structure Exec where
  source : String
  flowRunId : Option String
  state : Option Jv

/-- One job record, with the exact field set built by `create_job` /
`create_pending_job`. -/
structure Job where
  jobId : Nat
  processId : String
  status : String
  progress : Nat
  created : Nat
  updated : Nat
  inputs : Jv
  outputs : Jv
  execution : Option Exec

/-- The partial-field dicts passed to `update_job` by its callers: each
field `none` means the key is absent or `None` (both are skipped by the
merge loop). -/
structure JobUpdate where
  status : Option String
  progress : Option Nat
  outputs : Option Jv
  execution : Option Exec

/-- The job ledger state: the `_JOBS` dict (insertion-ordered), the fresh
job-id supply and the clock. -/
structure Ledger where
  jobs : List (Nat × Job)
  nextId : Nat
  clock : Nat

/-- The empty ledger. -/
def Ledger.empty : Ledger := ⟨[], 0, 0⟩

/-- Every stored job id was drawn from the counter, so `nextId` is fresh. -/
def Ledger.WF (l : Ledger) : Prop :=
  ∀ kv ∈ l.jobs, kv.1 < l.nextId

/-- Embeds `create_job(process_id, inputs, outputs)`: fresh id, equal
created/updated timestamps, status forced to `succeeded`, progress 100. -/
def create_job (l : Ledger) (processId : String) (inputs outputs : Jv) :
    Job × Ledger :=
  let job : Job :=
    { jobId := l.nextId, processId := processId, status := "succeeded",
      progress := 100, created := l.clock, updated := l.clock,
      inputs := inputs, outputs := outputs, execution := none }
  (job, ⟨l.jobs ++ [(l.nextId, job)], l.nextId + 1, l.clock + 1⟩)

/-- The placeholder outputs of a pending job: a zero-valued
`importSummary` (with `dryRun` defaulted from
`inputs.get("dhis2")`, then `.get("dryRun")`, default `True`) and empty
`features`. -/
def pendingOutputs (inputs : Jv) : Jv :=
  let dryRun :=
    match (inputs.getKey "dhis2").getD (.jobj []) |>.getKey "dryRun" with
    | some v => v.truthy
    | none => true
  .jobj
    [("importSummary",
      .jobj
        [("imported", .jnum 0), ("updated", .jnum 0), ("ignored", .jnum 0),
         ("deleted", .jnum 0), ("dryRun", .jbool dryRun)]),
     ("features", .jarr [])]

/-- Embeds `create_pending_job(process_id, inputs, source=…, flow_run_id=…)`:
status `queued`, progress 0, placeholder outputs, execution provenance. -/
def create_pending_job (l : Ledger) (processId : String) (inputs : Jv)
    (source : String) (flowRunId : Option String) : Job × Ledger :=
  let job : Job :=
    { jobId := l.nextId, processId := processId, status := "queued",
      progress := 0, created := l.clock, updated := l.clock,
      inputs := inputs, outputs := pendingOutputs inputs,
      execution := some ⟨source, flowRunId, none⟩ }
  (job, ⟨l.jobs ++ [(l.nextId, job)], l.nextId + 1, l.clock + 1⟩)

/-- The merge loop of `update_job`: each non-`None` field overwrites the
stored one, and `updated` is always refreshed. -/
def applyJobUpdate (now : Nat) (u : JobUpdate) (j : Job) : Job :=
  let j := match u.status with | some s => { j with status := s } | none => j
  let j := match u.progress with | some p => { j with progress := p } | none => j
  let j := match u.outputs with | some o => { j with outputs := o } | none => j
  let j := match u.execution with | some e => { j with execution := some e } | none => j
  { j with updated := now }

/-- In-place overwrite of the binding for `id` (a Python dict update on an
existing key keeps the key position). -/
def setEntry (jobs : List (Nat × Job)) (id : Nat) (j : Job) :
    List (Nat × Job) :=
  jobs.map fun kv => if kv.1 = id then (id, j) else kv

/-- Embeds `update_job(job_id, updates)`: `None` for an unknown id, otherwise the
non-`None` fields are merged into the stored record. -/
def update_job (l : Ledger) (id : Nat) (u : JobUpdate) :
    Option Job × Ledger :=
  match (l.jobs.find? fun kv => kv.1 = id).map Prod.snd with
  | none => (none, l)
  | some j =>
      let j2 := applyJobUpdate l.clock u j
      (some j2, ⟨setEntry l.jobs id j2, l.nextId, l.clock + 1⟩)

/-- Embeds `get_job(job_id)`. -/
def get_job (l : Ledger) (id : Nat) : Option Job :=
  (l.jobs.find? fun kv => kv.1 = id).map Prod.snd

/-- Embeds `list_jobs()`: `sorted(_JOBS.values(), key=created, reverse=True)` —
a stable sort, newest created timestamp first. -/
def list_jobs (l : Ledger) : List Job :=
  (l.jobs.map Prod.snd).mergeSort fun a b => decide (b.created ≤ a.created)

/-! ## Prefect orchestration adapter (`eoapi/orchestration/prefect.py`)
and read-time re-synchronization (`_sync_prefect_job` in
`eoapi/endpoints/processes.py`). -/

/-- Embeds `prefect_state_to_job_status(state_type)`: maps the backend state
vocabulary onto job statuses; `None`/empty and every unknown state map to
`queued`. -/
def prefect_state_to_job_status (stateType : Option String) : String :=
  match stateType with
  | none => "queued"
  | some s =>
      if s = "" then "queued"
      else
        let n := strUpper s
        if n = "PENDING" || n = "SCHEDULED" || n = "LATE" || n = "PAUSED" then
          "queued"
        else if n = "RUNNING" || n = "CANCELLING" then "running"
        else if n = "COMPLETED" then "succeeded"
        else if n = "FAILED" || n = "CRASHED" || n = "CANCELLED" then "failed"
        else "queued"

/-- The progress value `_sync_prefect_job` derives from a mapped status. -/
def syncProgress (mappedStatus : String) : Nat :=
  if mappedStatus = "running" then 50
  else if mappedStatus = "succeeded" || mappedStatus = "failed" then 100
  else 0

/-- Embeds `_sync_prefect_job(job)`: re-synchronizes a `source == "prefect"` job
on read by polling the backend (`get_flow_run`, modelled as a parameter;
`RuntimeError` is the `.error` case and leaves the job untouched) and
writing the mapped status/progress back through `update_job`. -/
def sync_prefect_job (enabled : Bool) (getFlowRun : String → Except Unit Jv)
    (l : Ledger) (job : Job) : Job × Ledger :=
  match job.execution with
  | none => (job, l)
  | some ex =>
      if ex.source ≠ "prefect" then (job, l)
      else
        match ex.flowRunId with
        | none => (job, l)
        | some frid =>
            if frid = "" || !enabled then (job, l)
            else
              match getFlowRun frid with
              | .error _ => (job, l)
              | .ok flowRun =>
                  let state :=
                    match flowRun.getKey "state" with
                    | some v => if v.truthy then v else .jobj []
                    | none => .jobj []
                  let stateType :=
                    match state.getKey "type" with
                    | some (.jstr s) => some s
                    | _ => none
                  let mapped := prefect_state_to_job_status stateType
                  let u : JobUpdate :=
                    { status := some mapped, progress := some (syncProgress mapped),
                      outputs := none,
                      execution := some ⟨ex.source, ex.flowRunId, some state⟩ }
                  match update_job l job.jobId u with
                  | (some updated, l2) => (updated, l2)
                  | (none, l2) => (job, l2)

/-! ## Schedule registry (`eoapi/schedules.py`) and schedule endpoints
(`eoapi/endpoints/schedules.py`)

Schedule ids (uuid4) and timestamps are modelled by monotone counters as
in the job ledger. -/

/-- The error taxonomy of the endpoints (`eoapi/endpoints/errors.py` and
inline `HTTPException`s). -/
inductive ApiErr where
  | notFound : ApiErr
  | invalidParam : String → ApiErr
  | serviceUnavailable : ApiErr
  | forbidden : ApiErr
deriving DecidableEq, Repr

/-- One schedule record, with the exact field set built by
`create_schedule`. -/
structure Schedule where
  scheduleId : Nat
  processId : Option String
  workflowId : Option String
  name : String
  cron : String
  timezone : String
  enabled : Bool
  inputs : Option Jv
  created : Nat
  updated : Nat
  lastRunAt : Option Nat
  lastRunJobId : Option Nat

/-- The `updates` dict a PATCH produces via
`payload.model_dump(exclude_unset=True)`: the outer `Option` is key
presence in the dict, the inner `Option` is the value (`none` = `None`). -/
structure ScheduleUpdate where
  name : Option (Option String)
  cron : Option (Option String)
  timezone : Option (Option String)
  enabled : Option (Option Bool)
  processId : Option (Option String)
  inputs : Option (Option Jv)
  workflowId : Option (Option String)

/-- The all-absent update. -/
def ScheduleUpdate.unset : ScheduleUpdate :=
  ⟨none, none, none, none, none, none, none⟩

/-- The schedule registry state (`_SCHEDULES` plus id/clock supply). -/
structure SchedReg where
  schedules : List (Nat × Schedule)
  nextId : Nat
  clock : Nat

/-- The empty registry. -/
def SchedReg.empty : SchedReg := ⟨[], 0, 0⟩

/-- Embeds `create_schedule(payload)` with the payload fields the endpoint
passes. -/
def create_schedule (r : SchedReg) (processId : Option String)
    (workflowId : Option String) (name cron timezone : String)
    (enabled : Bool) (inputs : Option Jv) : Schedule × SchedReg :=
  let s : Schedule :=
    { scheduleId := r.nextId, processId := processId, workflowId := workflowId,
      name := name, cron := cron, timezone := timezone, enabled := enabled,
      inputs := inputs, created := r.clock, updated := r.clock,
      lastRunAt := none, lastRunJobId := none }
  (s, ⟨r.schedules ++ [(r.nextId, s)], r.nextId + 1, r.clock + 1⟩)

/-- Embeds `get_schedule(schedule_id)`. -/
def get_schedule (r : SchedReg) (id : Nat) : Option Schedule :=
  (r.schedules.find? fun kv => kv.1 = id).map Prod.snd

/-- The merge loop of `update_schedule`: `for key, value in
updates.items(): if value is not None: schedule[key] = value` — a key
present with value `None` is silently skipped. -/
def applyScheduleUpdate (now : Nat) (u : ScheduleUpdate) (s : Schedule) :
    Schedule :=
  let s := match u.name with | some (some v) => { s with name := v } | _ => s
  let s := match u.cron with | some (some v) => { s with cron := v } | _ => s
  let s := match u.timezone with | some (some v) => { s with timezone := v } | _ => s
  let s := match u.enabled with | some (some v) => { s with enabled := v } | _ => s
  let s := match u.processId with | some (some v) => { s with processId := some v } | _ => s
  let s := match u.inputs with | some (some v) => { s with inputs := some v } | _ => s
  let s := match u.workflowId with | some (some v) => { s with workflowId := some v } | _ => s
  { s with updated := now }

/-- In-place overwrite of the binding for `id` in the schedule dict. -/
def setSchedEntry (xs : List (Nat × Schedule)) (id : Nat) (s : Schedule) :
    List (Nat × Schedule) :=
  xs.map fun kv => if kv.1 = id then (id, s) else kv

/-- Embeds `update_schedule(schedule_id, updates)`. -/
def update_schedule (r : SchedReg) (id : Nat) (u : ScheduleUpdate) :
    Option Schedule × SchedReg :=
  match (r.schedules.find? fun kv => kv.1 = id).map Prod.snd with
  | none => (none, r)
  | some s =>
      let s2 := applyScheduleUpdate r.clock u s
      (some s2, ⟨setSchedEntry r.schedules id s2, r.nextId, r.clock + 1⟩)

/-- Embeds `mark_schedule_run(schedule_id, job_id)`. -/
def mark_schedule_run (r : SchedReg) (id : Nat) (jobId : Nat) :
    Option Schedule × SchedReg :=
  match (r.schedules.find? fun kv => kv.1 = id).map Prod.snd with
  | none => (none, r)
  | some s =>
      let s2 :=
        { s with lastRunAt := some r.clock, lastRunJobId := some jobId,
                 updated := r.clock }
      (some s2, ⟨setSchedEntry r.schedules id s2, r.nextId, r.clock + 1⟩)

/-- Embeds `isinstance(workflow_id, str) and bool(workflow_id.strip())`:
a target reference counts only when it is a non-blank string. -/
def presentString (v : Option String) : Bool :=
  match v with
  | some w => strTrim w ≠ ""
  | none => false

/-- Embeds `isinstance(inputs, dict)`. -/
def presentInputs (v : Option Jv) : Bool :=
  match v with
  | some j => j.isObj
  | none => false

/-- Embeds `_validate_schedule_target(schedule)` on the target triple of a
schedule record (or of the `candidate` dict a patch builds). -/
def validate_schedule_target (processId : Option String) (inputs : Option Jv)
    (workflowId : Option String) : Except ApiErr Unit :=
  let hasW := presentString workflowId
  let hasP := presentString processId
  let hasI := presentInputs inputs
  if hasW && (hasP || hasI) then
    .error (.invalidParam "Schedule target must be either workflowId or processId+inputs")
  else if !hasW && !(hasP && hasI) then
    .error (.invalidParam "Schedule target requires workflowId or processId+inputs")
  else .ok ()

/-- Embeds `ScheduleCreateRequest.validate_target`: the pydantic model validator
on create, which only checks field presence (`is not None`). -/
def scheduleCreateRequestValid (processId : Option String) (inputs : Option Jv)
    (workflowId : Option String) : Bool :=
  let hasW := workflowId.isSome
  let hasP := processId.isSome
  let hasI := inputs.isSome
  !(hasW && (hasP || hasI)) && (hasW || (hasP && hasI))

/-- The `processId` of `candidate = dict(current, **updates)`: a key
present in `updates` overrides `current` even when its value is `None`. -/
def candidateProcessId (s : Schedule) (u : ScheduleUpdate) : Option String :=
  match u.processId with
  | some v => v
  | none => s.processId

/-- The `inputs` of the patch `candidate` dict. -/
def candidateInputs (s : Schedule) (u : ScheduleUpdate) : Option Jv :=
  match u.inputs with
  | some v => v
  | none => s.inputs

/-- The `workflowId` of the patch `candidate` dict. -/
def candidateWorkflowId (s : Schedule) (u : ScheduleUpdate) : Option String :=
  match u.workflowId with
  | some v => v
  | none => s.workflowId

/-- Embeds `patch_schedule(scheduleId, payload)`: look up the schedule, force the
opposite target keys to `None` in the updates dict, validate the merged
candidate, then store through `update_schedule`. -/
def patch_schedule (r : SchedReg) (sid : Nat) (u0 : ScheduleUpdate) :
    Except ApiErr Schedule × SchedReg :=
  match get_schedule r sid with
  | none => (.error .notFound, r)
  | some current =>
      let u1 :=
        match u0.workflowId with
        | some (some _) => { u0 with processId := some none, inputs := some none }
        | _ => u0
      let setP := match u1.processId with | some (some _) => true | _ => false
      let setI := match u1.inputs with | some (some _) => true | _ => false
      let u2 := if setP || setI then { u1 with workflowId := some none } else u1
      match validate_schedule_target (candidateProcessId current u2)
          (candidateInputs current u2) (candidateWorkflowId current u2) with
      | .error e => (.error e, r)
      | .ok _ =>
          match update_schedule r sid u2 with
          | (none, r2) => (.error .notFound, r2)
          | (some s, r2) => (.ok s, r2)

/-! ## Workflow registry (`eoapi/workflows.py`) and workflow runner
(`run_workflow_by_id` in `eoapi/endpoints/workflows.py`)

The external process execution behind `run_process` is abstracted as a
parameter `runp`; a local synchronous run ends in `create_job`, which the
counterexamples instantiate it with. -/

/-- One stored workflow step dict. -/
structure WfStep where
  name : Option String
  processId : Option String
  payload : Option Jv

/-- One workflow record, with the exact field set built by
`create_workflow`. -/
structure Workflow where
  workflowId : Nat
  name : String
  steps : List WfStep
  created : Nat
  updated : Nat
  lastRunAt : Option Nat
  lastRunJobIds : List Nat

/-- The workflow registry state (`_WORKFLOWS` plus id/clock supply). -/
structure WfReg where
  workflows : List (Nat × Workflow)
  nextId : Nat
  clock : Nat

/-- The empty workflow registry. -/
def WfReg.empty : WfReg := ⟨[], 0, 0⟩

/-- Embeds `create_workflow(payload)`. -/
def create_workflow (r : WfReg) (name : String) (steps : List WfStep) :
    Workflow × WfReg :=
  let w : Workflow :=
    { workflowId := r.nextId, name := name, steps := steps,
      created := r.clock, updated := r.clock, lastRunAt := none,
      lastRunJobIds := [] }
  (w, ⟨r.workflows ++ [(r.nextId, w)], r.nextId + 1, r.clock + 1⟩)

/-- Embeds `get_workflow(workflow_id)`. -/
def get_workflow (r : WfReg) (id : Nat) : Option Workflow :=
  (r.workflows.find? fun kv => kv.1 = id).map Prod.snd

/-- Embeds `mark_workflow_run(workflow_id, job_ids)`. -/
def mark_workflow_run (r : WfReg) (id : Nat) (jobIds : List Nat) :
    Option Workflow × WfReg :=
  match (r.workflows.find? fun kv => kv.1 = id).map Prod.snd with
  | none => (none, r)
  | some w =>
      let w2 :=
        { w with lastRunAt := some r.clock, lastRunJobIds := jobIds,
                 updated := r.clock }
      (some w2,
       ⟨r.workflows.map fun kv => if kv.1 = id then (id, w2) else kv,
        r.nextId, r.clock + 1⟩)

/-- One entry of the `step_results` list the runner accumulates. -/
structure StepResult where
  step : String
  processId : String
  jobId : Nat
  status : String

/-- Embeds `step.get("payload") or {}`: a missing or falsy payload
becomes the empty dict. -/
def stepPayload (st : WfStep) : Jv :=
  match st.payload with
  | some v => if v.truthy then v else .jobj []
  | none => .jobj []

/-- The step loop of `run_workflow_by_id`: for each step in stored order,
check `processId`, check that the payload holds an object-valued
`inputs`, then dispatch through `run_process` (`runp`).  The ledger is
returned even on error: an exception does not roll back jobs already
created by earlier steps. -/
def runWorkflowSteps (runp : String → Jv → Ledger → Job × Ledger) :
    List WfStep → Nat → Ledger → List Nat → List StepResult →
    Except ApiErr (List Nat × List StepResult) × Ledger
  | [], _, l, jobIds, results => (.ok (jobIds, results), l)
  | st :: rest, idx, l, jobIds, results =>
      match st.processId with
      | none =>
          (.error (.invalidParam
            ("Workflow step " ++ toString (idx + 1) ++ " is missing processId")), l)
      | some pid =>
          match (stepPayload st).getKey "inputs" with
          | some (.jobj inputEntries) =>
              let (job, l2) := runp pid (.jobj inputEntries) l
              let res : StepResult :=
                { step := (st.name.getD ("step-" ++ toString (idx + 1))),
                  processId := pid, jobId := job.jobId, status := job.status }
              runWorkflowSteps runp rest (idx + 1) l2 (jobIds ++ [job.jobId])
                (results ++ [res])
          | _ =>
              (.error (.invalidParam
                ("Workflow step " ++ toString (idx + 1)
                  ++ " payload must include object field inputs")), l)

/-- The value `run_workflow_by_id` returns on success. -/
structure RunResult where
  workflowId : Nat
  status : String
  jobIds : List Nat
  steps : List StepResult

/-- Embeds `run_workflow_by_id(workflow_id)`. -/
def run_workflow_by_id (runp : String → Jv → Ledger → Job × Ledger)
    (wr : WfReg) (l : Ledger) (wid : Nat) :
    Except ApiErr RunResult × WfReg × Ledger :=
  match get_workflow wr wid with
  | none => (.error .notFound, wr, l)
  | some wf =>
      if wf.steps.isEmpty then
        (.error (.invalidParam "Workflow has no steps"), wr, l)
      else
        match runWorkflowSteps runp wf.steps 0 l [] [] with
        | (.error e, l2) => (.error e, wr, l2)
        | (.ok (jobIds, results), l2) =>
            let (_, wr2) := mark_workflow_run wr wid jobIds
            (.ok ⟨wid, "queued", jobIds, results⟩, wr2, l2)

/-! ## Scheduler loop due-ness check (`_schedule_due` in
`eoapi/scheduler_runtime.py`)

The optional `croniter` dependency is modelled as
`Option (String → Nat → Option Nat)`: `none` embeds a failing import, and
the capability itself returns `none` when `croniter(cron, anchor)` or
`get_next` raises (an unparsable expression).  Instants are UTC seconds;
`astimezone` is a bijection on instants, so the timezone conversion is
folded into the capability. -/

/-- Embeds `_schedule_due(schedule, now_utc)`. -/
def schedule_due (cronCap : Option (String → Nat → Option Nat))
    (s : Schedule) (now : Nat) : Bool :=
  if !s.enabled then false
  else
    let cron := strTrim s.cron
    if cron = "" then false
    else
      match cronCap with
      | none => false
      | some nextFire =>
          let anchor :=
            match s.lastRunAt with
            | some t => t
            | none => s.created
          match nextFire cron anchor with
          | none => false
          | some nextRun => nextRun ≤ now

/-- Modelled from the croniter contract for the every-minute expression
`* * * * *` (the concrete cron of the claim, evaluated by the external
`croniter` library): `get_next` after `anchor` is the first minute
boundary strictly after `anchor`; other expressions are out of scope for
this capability instance. -/
def everyMinuteCron : String → Nat → Option Nat := fun cron anchor =>
  if cron = "* * * * *" then some ((anchor / 60 + 1) * 60) else none

/-! ## Callback gate (`_assert_scheduler_callback_authorized` and
`callback_schedule` in `eoapi/endpoints/schedules.py`) -/

/-- Embeds `secrets.compare_digest`: constant-time in the source; its value is
string equality. -/
def compare_digest (a b : String) : Bool := a = b

/-- Embeds `_assert_scheduler_callback_authorized(token)`: a missing or empty
server-side `EOAPI_SCHEDULER_TOKEN` is `ServiceUnavailable`; a missing or
mismatched caller token is `Forbidden`. -/
def assert_scheduler_callback_authorized (secret token : Option String) :
    Except ApiErr Unit :=
  match secret with
  | none => .error .serviceUnavailable
  | some s =>
      if s = "" then .error .serviceUnavailable
      else
        match token with
        | none => .error .forbidden
        | some t => if compare_digest t s then .ok () else .error .forbidden

/-- Embeds `callback_schedule(scheduleId, request, x_scheduler_token)`: the
authorization gate followed by `_run_schedule_now` (abstracted as
`dispatch`); the second component counts dispatch invocations. -/
def callback_schedule {α : Type} (secret token : Option String)
    (dispatch : Unit → α) : Except ApiErr α × Nat :=
  match assert_scheduler_callback_authorized secret token with
  | .error e => (.error e, 0)
  | .ok _ => (.ok (dispatch ()), 1)

/-! ## Remote-delegated process dispatch with local fallback (spec §4.4) -/

/-- Modelled from the spec: the remote-enabled branch of the Execution
Dispatcher for a process target is absent from `src/` — only its callees
(`create_pending_job` in `eoapi/jobs.py`,
`submit_aggregate_import_run` in `eoapi/orchestration/prefect.py`), its
read-side consumer (`_sync_prefect_job`) and its tests are present.
Following spec §4.4: (a) create a pending job with remote provenance
(`source = "prefect"`, the concrete remote backend); (b) submit a run to
the backend with the pending job id as correlation token (`submit`
abstracts `submit_aggregate_import_run`, whose communication failures are
the `.error` case); (c) on success store the backend run id in the job
execution metadata and return the queued job; (d) on failure mark the
pending job failed and transparently re-execute through the local
synchronous path (`run_process`, which ends in `create_job`;
`localOutputs` abstracts the opaque result of the external Process
Executor), never raising to the caller. -/
def dispatch_process_remote (submit : Nat → Except Unit String)
    (localOutputs : Jv) (l : Ledger) (processId : String) (inputs : Jv) :
    Job × Ledger :=
  let (pending, l1) := create_pending_job l processId inputs "prefect" none
  match submit pending.jobId with
  | .ok runId =>
      match update_job l1 pending.jobId
          { status := none, progress := none, outputs := none,
            execution := some ⟨"prefect", some runId, none⟩ } with
      | (some j, l2) => (j, l2)
      | (none, l2) => (pending, l2)
  | .error _ =>
      let (_, l2) :=
        update_job l1 pending.jobId
          { status := some "failed", progress := some 100, outputs := none,
            execution := none }
      create_job l2 processId inputs localOutputs

/-! ## Derived operations and concrete instances used by the theorems -/

/-- A sequence of `create_job` calls, one per `(processId, inputs,
outputs)` spec. -/
def createMany (l : Ledger) : List (String × Jv × Jv) → Ledger
  | [] => l
  | spec :: rest => createMany (create_job l spec.1 spec.2.1 spec.2.2).2 rest

/-- A step passes the per-step validation of the runner: it has a `processId`
and its payload holds an object-valued `inputs`. -/
def stepOk (st : WfStep) : Bool :=
  st.processId.isSome &&
    (match (stepPayload st).getKey "inputs" with
      | some (.jobj _) => true
      | _ => false)

/-- A local run ending in `create_job`, as the dispatcher takes with no
remote backend configured (the concrete `runp` of the workflow
counterexamples; the job outputs are opaque). -/
def localRunp : String → Jv → Ledger → Job × Ledger :=
  fun pid inputs l => create_job l pid inputs (.jobj [])

/-- A concrete file system whose every file holds bytes that are not
valid UTF-8. -/
def undecodableFS : FS :=
  { files := fun _ => .undecodable, dirWritable := true, writeOk := true }

/-- A concrete file system whose every file holds decodable text that is
not valid JSON. -/
def corruptFS : FS :=
  { files := fun _ => .corrupt, dirWritable := true, writeOk := true }

/-- A concrete healthy file system. -/
def healthyFS : FS :=
  { files := fun _ => .absent, dirWritable := true, writeOk := true }

/-- A concrete schedule: enabled, every-minute cron, last run 120
seconds before the instant 600. -/
def dueSchedule : Schedule :=
  { scheduleId := 0, processId := some "p", workflowId := none,
    name := "s", cron := "* * * * *", timezone := "UTC", enabled := true,
    inputs := some (.jobj []), created := 0, updated := 0,
    lastRunAt := some 480, lastRunJobId := none }

/-- A one-job ledger: a single job created through `create_job`, hence
already terminal (`status = "succeeded"`). -/
def oneJobLedger : Ledger :=
  (create_job Ledger.empty "raster.zonal_stats" (.jobj []) (.jobj [])).2

/-- The `updates` dict carrying only `status = "queued"`. -/
def statusQueuedUpdate : JobUpdate := ⟨some "queued", none, none, none⟩

/-- A registry holding one schedule with a process target, as the create
endpoint stores it (the create-request validator accepts a
processId+inputs target). -/
def processTargetReg : SchedReg :=
  (create_schedule SchedReg.empty (some "raster.zonal_stats") none
    "nightly-zonal-stats" "0 0 * * *" "UTC" true
    (some (.jobj [("dataset_id", .jstr "chirps-daily")]))).2

/-- The PATCH body of the `switch_to_workflow` OpenAPI example shipped
with the endpoint: only `workflowId` is set. -/
def switchToWorkflowPatch : ScheduleUpdate :=
  { ScheduleUpdate.unset with workflowId := some (some "wf_123") }

/-- A valid first workflow step. -/
def goodStep : WfStep :=
  { name := some "zonal", processId := some "p1",
    payload := some (.jobj [("inputs", .jobj [("x", .jnum 1)])]) }

/-- A second workflow step whose payload lacks `inputs`. -/
def badStep : WfStep :=
  { name := some "bad", processId := some "p2",
    payload := some (.jobj [("other", .jnum 2)]) }

/-- A registry holding the two-step workflow `goodStep, badStep`. -/
def twoStepReg : WfReg :=
  (create_workflow WfReg.empty "two-step" [goodStep, badStep]).2

/-! ## Theorems -/

/-- C5 (code bug): `load_state_map` does not fail soft on every kind of
corrupt content — with persistence enabled, a state file whose bytes are
not valid UTF-8 makes it raise `UnicodeDecodeError` to the caller (the
`except` tuple catches only `OSError` and `json.JSONDecodeError`), while
the neighbouring caught failure modes (JSON-corrupt text, `OSError` on
read) do return the empty map, with persistence disabled the file is
never read so nothing can raise, and `save_state_map` with an unwritable
state directory is a no-op. -/
theorem load_state_map_raises_on_undecodable :
    load_state_map ⟨none⟩ undecodableFS "jobs" = .error ()
    ∧ load_state_map ⟨none⟩ corruptFS "jobs" = .ok []
    ∧ load_state_map ⟨none⟩
        { undecodableFS with files := fun _ => .unreadable } "jobs" = .ok []
    ∧ load_state_map ⟨some "0"⟩ undecodableFS "jobs" = .ok []
    ∧ save_state_map ⟨none⟩
        { undecodableFS with dirWritable := false } "jobs" []
      = { undecodableFS with dirWritable := false } :=
  ⟨rfl, rfl, rfl, rfl, rfl⟩

/-- C6: with persistence enabled and a writable state directory,
`save_state_map(name, M)` followed by `load_state_map(name)` returns `M`
(without raising: `save` writes valid UTF-8 JSON, so the load succeeds),
for every record map `M` whose values are dicts (including the empty
map). -/
theorem state_store_round_trip (env : StoreEnv) (fs : FS) (name : String)
    (payload : List (String × Jv))
    (hEnabled : state_enabled env = true)
    (hDir : fs.dirWritable = true) (hWrite : fs.writeOk = true)
    (hRecords : ∀ kv ∈ payload, kv.2.isObj = true) :
    load_state_map env (save_state_map env fs name payload) name
      = .ok payload := by
  simp only [save_state_map, load_state_map, hEnabled, hDir, hWrite,
    Bool.not_true, Bool.false_eq_true, if_false, if_pos rfl]
  exact congrArg Except.ok (List.filter_eq_self.mpr hRecords)

/-- C6 witness: the round trip at a concrete one-record map and at the
empty map, with `EOAPI_STATE_PERSIST` unset (default enabled). -/
theorem state_store_round_trip_witness :
    load_state_map ⟨none⟩
        (save_state_map ⟨none⟩ healthyFS "jobs" [("a", .jobj [("k", .jnum 1)])])
        "jobs"
      = .ok [("a", .jobj [("k", .jnum 1)])]
    ∧ load_state_map ⟨none⟩ (save_state_map ⟨none⟩ healthyFS "schedules" [])
        "schedules" = .ok [] :=
  ⟨state_store_round_trip ⟨none⟩ healthyFS "jobs" [("a", .jobj [("k", .jnum 1)])]
      rfl rfl rfl (by intro kv hkv; simp at hkv; simp [hkv, Jv.isObj]),
   state_store_round_trip ⟨none⟩ healthyFS "schedules" [] rfl rfl rfl
      (by intro kv hkv; cases hkv)⟩

/-- C8: the due-ness check never fires for a disabled schedule, never
fires without the cron-evaluation capability, never fires when the cron
expression is unparsable (the capability rejects it at every anchor), and
does fire for an enabled `* * * * *` schedule whose last run was two
minutes before now.  It is a total function, so it never raises. -/
theorem schedule_due_spec (cap : Option (String → Nat → Option Nat))
    (s : Schedule) (now : Nat) :
    (s.enabled = false → schedule_due cap s now = false)
    ∧ schedule_due none s now = false
    ∧ (∀ f, cap = some f → (∀ a, f (strTrim s.cron) a = none) →
        schedule_due cap s now = false)
    ∧ (s.enabled = true → s.cron = "* * * * *" →
        s.lastRunAt = some (now - 120) → 120 ≤ now →
        schedule_due (some everyMinuteCron) s now = true) := by
  refine ⟨fun h => ?_, ?_, fun f hf hnone => ?_, fun hEn hCron hLast hNow => ?_⟩
  · simp [schedule_due, h]
  · simp only [schedule_due]
    split
    · rfl
    · split
      · rfl
      · rfl
  · simp only [schedule_due, hf]
    split
    · rfl
    · split
      · rfl
      · rw [hnone]
  · have htrim : strTrim s.cron = "* * * * *" := by rw [hCron]; decide
    simp only [schedule_due, hEn, htrim, hLast, Bool.not_true,
      Bool.false_eq_true, if_false, everyMinuteCron, if_pos rfl,
      reduceCtorEq]
    have h1 : ((now - 120) / 60 + 1) * 60 ≤ now := by omega
    simp [h1]

/-- C8 witness: the disabled copy of the schedule is not due, the absent
capability and the all-rejecting capability make it not due, and the
enabled every-minute schedule is due at `now = 600`. -/
theorem schedule_due_spec_witness :
    schedule_due (some everyMinuteCron) { dueSchedule with enabled := false }
        600 = false
    ∧ schedule_due none dueSchedule 600 = false
    ∧ schedule_due (some fun _ _ => none) dueSchedule 600 = false
    ∧ schedule_due (some everyMinuteCron) dueSchedule 600 = true :=
  ⟨(schedule_due_spec (some everyMinuteCron)
      { dueSchedule with enabled := false } 600).1 rfl,
   (schedule_due_spec none dueSchedule 600).2.1,
   (schedule_due_spec (some fun _ _ => none) dueSchedule 600).2.2.1
      (fun _ _ => none) rfl (fun _ => rfl),
   (schedule_due_spec (some everyMinuteCron) dueSchedule 600).2.2.2 rfl rfl
      rfl (by omega)⟩

/-- C9: a callback with no server-side secret configured fails
`ServiceUnavailable` regardless of the supplied token; with a configured
secret, a present-but-different token fails `Forbidden` with no dispatch;
a token equal to the secret dispatches exactly once. -/
theorem callback_gate_spec {α : Type} (s t : String) (d : Unit → α) :
    (∀ tok : Option String,
      callback_schedule none tok d = (.error .serviceUnavailable, 0))
    ∧ (s ≠ "" → t ≠ s →
        callback_schedule (some s) (some t) d = (.error .forbidden, 0))
    ∧ (s ≠ "" → callback_schedule (some s) (some s) d = (.ok (d ()), 1)) := by
  refine ⟨fun tok => rfl, fun hs ht => ?_, fun hs => ?_⟩
  · simp [callback_schedule, assert_scheduler_callback_authorized,
      compare_digest, hs, ht]
  · simp [callback_schedule, assert_scheduler_callback_authorized,
      compare_digest, hs]

/-- C9 witness: the three callback outcomes at a concrete secret, token
and dispatch function. -/
theorem callback_gate_spec_witness :
    callback_schedule none (some "any-value") (fun _ => 7)
        = (.error .serviceUnavailable, 0)
    ∧ callback_schedule (some "secret-token") (some "wrong-token")
        (fun _ => 7) = (.error .forbidden, 0)
    ∧ callback_schedule (some "secret-token") (some "secret-token")
        (fun _ => 7) = (.ok 7, 1) :=
  ⟨(callback_gate_spec "secret-token" "wrong-token" (fun _ => 7)).1
      (some "any-value"),
   (callback_gate_spec "secret-token" "wrong-token" (fun _ => 7)).2.1
      (by decide) (by decide),
   (callback_gate_spec "secret-token" "wrong-token" (fun _ => 7)).2.2
      (by decide)⟩

/-- C10: with a configured secret and no `X-Scheduler-Token` header at
all, the callback fails `Forbidden` — like a wrong token, not
`ServiceUnavailable` — and no dispatch occurs. -/
theorem callback_absent_token_forbidden {α : Type} (s : String)
    (d : Unit → α) (hs : s ≠ "") :
    callback_schedule (some s) none d = (.error .forbidden, 0) := by
  simp [callback_schedule, assert_scheduler_callback_authorized, hs]

/-- C10 witness: the absent-token callback at a concrete secret. -/
theorem callback_absent_token_forbidden_witness :
    callback_schedule (some "secret-token") none (fun _ => 7)
      = (.error .forbidden, 0) :=
  callback_absent_token_forbidden "secret-token" (fun _ => 7) (by decide)

/-- C4 counterexample: `update_job` moves a job whose status is the
terminal `succeeded` back to `queued` — the ledger has no forward-only
transition guard, refuting the claim at this concrete input. -/
theorem job_status_moves_backward :
    (get_job oneJobLedger 0).map Job.status = some "succeeded"
    ∧ ((update_job oneJobLedger 0 statusQueuedUpdate).1).map Job.status
        = some "queued"
    ∧ (get_job (update_job oneJobLedger 0 statusQueuedUpdate).2 0).map
        Job.status = some "queued" :=
  ⟨rfl, rfl, rfl⟩

/-- C4 amended: the job ledger does not restrict status transitions —
`update_job` unconditionally stores whatever non-null status the caller
(including the read-time remote re-synchronization) supplies, regardless
of the current status of the job, so backward movement out of a terminal
state is possible. -/
theorem update_job_sets_status_unconditionally (l : Ledger) (id : Nat)
    (u : JobUpdate) (s : String) (j : Job)
    (hget : get_job l id = some j) (hs : u.status = some s) :
    ((update_job l id u).1).map Job.status = some s
    ∧ (get_job l id).map Job.status = some j.status := by
  have hfind : (l.jobs.find? fun kv => kv.1 = id).map Prod.snd = some j := hget
  refine ⟨?_, by rw [hget]; rfl⟩
  simp only [update_job, hfind]
  simp only [applyJobUpdate, hs]
  cases u.progress <;> cases u.outputs <;> cases u.execution <;> rfl

/-- C4 amended witness: at the concrete one-job ledger, the stored status
is set to exactly the supplied value. -/
theorem update_job_sets_status_unconditionally_witness :
    ((update_job oneJobLedger 0 statusQueuedUpdate).1).map Job.status
        = some "queued"
    ∧ (get_job oneJobLedger 0).map Job.status = some "succeeded" :=
  update_job_sets_status_unconditionally oneJobLedger 0 statusQueuedUpdate
    "queued" (create_job Ledger.empty "raster.zonal_stats" (.jobj []) (.jobj [])).1
    rfl rfl

/-- C2 (code bug): patching a process-target schedule to a workflow
target reports success and the validated candidate is clean, but the
stored record still holds the old `processId` and `inputs` next to the
new `workflowId` — `patch_schedule` clears the opposite target by
writing `None`s into the updates dict, and the `update_schedule` merge
loop skips exactly those `None`s.  The stored record violates the
mutual-exclusion invariant, and `_validate_schedule_target` itself
rejects it on the next execution attempt. -/
theorem patch_to_workflow_keeps_stale_process_target :
    scheduleCreateRequestValid (some "raster.zonal_stats")
        (some (.jobj [("dataset_id", .jstr "chirps-daily")])) none = true
    ∧ ((patch_schedule processTargetReg 0 switchToWorkflowPatch).1.toOption.map
        Schedule.workflowId) = some (some "wf_123")
    ∧ (get_schedule (patch_schedule processTargetReg 0 switchToWorkflowPatch).2
        0).map Schedule.processId = some (some "raster.zonal_stats")
    ∧ (get_schedule (patch_schedule processTargetReg 0 switchToWorkflowPatch).2
        0).map Schedule.inputs
        = some (some (.jobj [("dataset_id", .jstr "chirps-daily")]))
    ∧ (get_schedule (patch_schedule processTargetReg 0 switchToWorkflowPatch).2
        0).map Schedule.workflowId = some (some "wf_123")
    ∧ (get_schedule (patch_schedule processTargetReg 0 switchToWorkflowPatch).2
        0).map (fun st =>
          validate_schedule_target st.processId st.inputs st.workflowId)
        = some (.error (.invalidParam
            "Schedule target must be either workflowId or processId+inputs")) :=
  ⟨rfl, rfl, rfl, rfl, rfl, rfl⟩

/-- Each creation adds exactly one record. -/
theorem createMany_length (specs : List (String × Jv × Jv)) (l : Ledger) :
    (createMany l specs).jobs.length = l.jobs.length + specs.length := by
  induction specs generalizing l with
  | nil => rfl
  | cons spec rest ih =>
      simp only [createMany, ih, create_job, List.length_append,
        List.length_singleton, List.length_cons, List.length_nil]
      omega

/-- C7: `get_job` immediately after `create_job` returns the identical
record just created, and after `N` creations from an empty ledger
`list_jobs` returns exactly `N` records ordered by created timestamp
descending (newest first). -/
theorem job_ledger_create_get_list (l : Ledger) (pid : String)
    (inputs outputs : Jv) (specs : List (String × Jv × Jv)) (hwf : l.WF) :
    get_job (create_job l pid inputs outputs).2
        ((create_job l pid inputs outputs).1).jobId
      = some (create_job l pid inputs outputs).1
    ∧ (list_jobs (createMany Ledger.empty specs)).length = specs.length
    ∧ (list_jobs (createMany Ledger.empty specs)).Pairwise
        (fun a b => b.created ≤ a.created) := by
  refine ⟨?_, ?_, ?_⟩
  · simp only [get_job, create_job]
    rw [List.find?_append]
    have hnone : (l.jobs.find? fun kv => decide (kv.1 = l.nextId)) = none :=
      List.find?_eq_none.mpr fun x hx => by
        simpa using Nat.ne_of_lt (hwf x hx)
    rw [hnone]
    simp
  · simp [list_jobs, List.length_mergeSort, createMany_length, Ledger.empty]
  · have htrans : ∀ a b c : Job, decide (b.created ≤ a.created) = true →
        decide (c.created ≤ b.created) = true →
        decide (c.created ≤ a.created) = true := by
      intro a b c hab hbc
      simp only [decide_eq_true_iff] at *
      omega
    have htotal : ∀ a b : Job,
        (decide (b.created ≤ a.created)
          || decide (a.created ≤ b.created)) = true := by
      intro a b
      rcases Nat.le_total b.created a.created with h | h <;> simp [h]
    have hs := List.sorted_mergeSort htrans htotal
      ((createMany Ledger.empty specs).jobs.map Prod.snd)
    exact hs.imp fun h => by simpa using h

/-- C7 witness: at two concrete creations, get-after-create returns the
new record and the listing has two records, newest first. -/
theorem job_ledger_create_get_list_witness :
    get_job (create_job Ledger.empty "p" (.jobj []) (.jobj [])).2
        ((create_job Ledger.empty "p" (.jobj []) (.jobj [])).1).jobId
      = some (create_job Ledger.empty "p" (.jobj []) (.jobj [])).1
    ∧ (list_jobs (createMany Ledger.empty
        [("p", .jobj [], .jobj []), ("q", .jobj [], .jobj [])])).length = 2
    ∧ (list_jobs (createMany Ledger.empty
        [("p", .jobj [], .jobj []), ("q", .jobj [], .jobj [])])).Pairwise
        (fun a b => b.created ≤ a.created) :=
  job_ledger_create_get_list Ledger.empty "p" (.jobj []) (.jobj [])
    [("p", .jobj [], .jobj []), ("q", .jobj [], .jobj [])]
    (fun kv h => absurd h (List.not_mem_nil kv))

/-- C3 counterexample: running a two-step workflow whose second step
lacks `inputs` does fail with `InvalidParameterValue`, but only after the
first step was dispatched — exactly one job record exists afterwards,
refuting "no step is dispatched and no job record is created". -/
theorem workflow_missing_inputs_runs_earlier_steps :
    (run_workflow_by_id localRunp twoStepReg Ledger.empty 0).1
      = .error (.invalidParam
          "Workflow step 2 payload must include object field inputs")
    ∧ ((run_workflow_by_id localRunp twoStepReg Ledger.empty 0).2.2).jobs.length
        = 1
    ∧ ((run_workflow_by_id localRunp twoStepReg Ledger.empty 0).2.2).jobs.map
        (fun kv => kv.2.processId) = ["p1"] :=
  ⟨rfl, rfl, rfl⟩

/-- The step loop aborts with `InvalidParameterValue` at the first
invalid step, after having dispatched exactly the steps before it (one
job each, given that every dispatch creates exactly one job). -/
theorem runWorkflowSteps_first_invalid
    (runp : String → Jv → Ledger → Job × Ledger)
    (hrun : ∀ pid inputs l,
      ((runp pid inputs l).2).jobs.length = l.jobs.length + 1)
    (steps₁ : List WfStep) (st : WfStep) (steps₂ : List WfStep)
    (idx : Nat) (l : Ledger) (jobIds : List Nat)
    (results : List StepResult)
    (h1 : ∀ s ∈ steps₁, stepOk s = true) (h2 : stepOk st = false) :
    ∃ msg l2,
      runWorkflowSteps runp (steps₁ ++ st :: steps₂) idx l jobIds results
        = (.error (.invalidParam msg), l2)
      ∧ l2.jobs.length = l.jobs.length + steps₁.length := by
  induction steps₁ generalizing idx l jobIds results with
  | nil =>
      simp only [List.nil_append, List.length_nil, Nat.add_zero]
      cases hpid : st.processId with
      | none =>
          refine ⟨"Workflow step " ++ toString (idx + 1)
            ++ " is missing processId", l, ?_, rfl⟩
          simp only [runWorkflowSteps, hpid]
      | some pid =>
          refine ⟨"Workflow step " ++ toString (idx + 1)
            ++ " payload must include object field inputs", l, ?_, rfl⟩
          simp only [runWorkflowSteps, hpid]
          rcases hin : (stepPayload st).getKey "inputs" with _ | v
          · rfl
          · cases v <;>
              first
                | rfl
                | (exfalso; simp [stepOk, hpid, hin] at h2)
  | cons s rest ih =>
      have hs : stepOk s = true := h1 s (by simp)
      obtain ⟨pid, hpid⟩ : ∃ pid, s.processId = some pid := by
        rcases hp : s.processId with _ | pid
        · simp [stepOk, hp] at hs
        · exact ⟨pid, rfl⟩
      obtain ⟨entries, hin⟩ :
          ∃ entries, (stepPayload s).getKey "inputs" = some (.jobj entries) := by
        rcases hi : (stepPayload s).getKey "inputs" with _ | v
        · simp [stepOk, hpid, hi] at hs
        · cases v <;>
            first
              | exact ⟨_, rfl⟩
              | simp [stepOk, hpid, hi] at hs
      simp only [List.cons_append, runWorkflowSteps, hpid, hin]
      obtain ⟨msg, l2, heq, hlen⟩ :=
        ih (idx + 1) (runp pid (.jobj entries) l).2
          (jobIds ++ [((runp pid (.jobj entries) l).1).jobId])
          (results ++
            [(⟨s.name.getD ("step-" ++ toString (idx + 1)), pid,
              ((runp pid (.jobj entries) l).1).jobId,
              ((runp pid (.jobj entries) l).1).status⟩ : StepResult)])
          (fun x hx => h1 x (by simp [hx]))
      refine ⟨msg, l2, heq, ?_⟩
      rw [hlen, hrun]
      simp only [List.length_cons]
      omega

/-- C3 amended: the run fails with `InvalidParameterValue` at the first
step whose payload lacks an object-valued `inputs` (or lacks a
`processId`), validated immediately before dispatching that step — the
steps before it have already been dispatched, leaving exactly one job
record each, and the workflow record is not marked as run. -/
theorem run_workflow_fails_at_first_invalid_step
    (runp : String → Jv → Ledger → Job × Ledger)
    (hrun : ∀ pid inputs l,
      ((runp pid inputs l).2).jobs.length = l.jobs.length + 1)
    (wr : WfReg) (l : Ledger) (wid : Nat) (wf : Workflow)
    (steps₁ : List WfStep) (st : WfStep) (steps₂ : List WfStep)
    (hget : get_workflow wr wid = some wf)
    (hsteps : wf.steps = steps₁ ++ st :: steps₂)
    (h1 : ∀ s ∈ steps₁, stepOk s = true) (h2 : stepOk st = false) :
    (∃ msg, (run_workflow_by_id runp wr l wid).1
      = .error (.invalidParam msg))
    ∧ ((run_workflow_by_id runp wr l wid).2.2).jobs.length
        = l.jobs.length + steps₁.length
    ∧ (run_workflow_by_id runp wr l wid).2.1 = wr := by
  obtain ⟨msg, l2, heq, hlen⟩ := runWorkflowSteps_first_invalid runp hrun
    steps₁ st steps₂ 0 l [] [] h1 h2
  have hne : (steps₁ ++ st :: steps₂).isEmpty = false := by
    cases steps₁ <;> rfl
  simp only [run_workflow_by_id, hget, hsteps, hne, heq, Bool.false_eq_true,
    if_false]
  exact ⟨⟨msg, rfl⟩, hlen, trivial⟩

/-- C3 amended witness: at the concrete two-step workflow with a valid
first step and an `inputs`-less second step, the run errors, one job
exists, and the workflow registry is untouched. -/
theorem run_workflow_fails_at_first_invalid_step_witness :
    (∃ msg, (run_workflow_by_id localRunp twoStepReg Ledger.empty 0).1
      = .error (.invalidParam msg))
    ∧ ((run_workflow_by_id localRunp twoStepReg Ledger.empty 0).2.2).jobs.length
        = Ledger.empty.jobs.length + [goodStep].length
    ∧ (run_workflow_by_id localRunp twoStepReg Ledger.empty 0).2.1
        = twoStepReg :=
  run_workflow_fails_at_first_invalid_step localRunp
    (fun pid inputs l => by simp [localRunp, create_job])
    twoStepReg Ledger.empty 0
    (create_workflow WfReg.empty "two-step" [goodStep, badStep]).1
    [goodStep] badStep [] rfl rfl
    (fun s hs => by
      simp only [List.mem_singleton] at hs
      subst hs
      rfl)
    rfl

/-- Overwriting a key that no entry carries leaves the dict unchanged. -/
theorem map_setEntry_fresh (xs : List (Nat × Job)) (id : Nat) (j : Job)
    (h : ∀ kv ∈ xs, kv.1 ≠ id) :
    (xs.map fun kv => if kv.1 = id then (id, j) else kv) = xs := by
  induction xs with
  | nil => rfl
  | cons kv rest ih =>
      have h0 : kv.1 ≠ id := h kv (List.mem_cons_self kv rest)
      have hrest := ih fun x hx => h x (List.mem_cons_of_mem kv hx)
      simp only [List.map_cons, if_neg h0, hrest]

/-- C1: with the remote backend enabled, a submit failure is recovered
without raising — the dispatcher returns the terminal job of the local
re-execution of the same request, and the pending job it created first
(remote provenance) is left stored with status `failed`, not `queued`. -/
theorem remote_submit_failure_falls_back_local
    (submit : Nat → Except Unit String) (localOutputs : Jv) (l : Ledger)
    (pid : String) (inputs : Jv) (hwf : l.WF)
    (hfail : submit l.nextId = Except.error ()) :
    ((dispatch_process_remote submit localOutputs l pid inputs).1).status
        = "succeeded"
    ∧ ((dispatch_process_remote submit localOutputs l pid inputs).1).processId
        = pid
    ∧ ((dispatch_process_remote submit localOutputs l pid inputs).1).inputs
        = inputs
    ∧ (get_job (dispatch_process_remote submit localOutputs l pid inputs).2
        l.nextId).map Job.status = some "failed"
    ∧ ((get_job (dispatch_process_remote submit localOutputs l pid inputs).2
        l.nextId).map fun j => j.execution.map Exec.source)
        = some (some "prefect") := by
  have hfind : (l.jobs.find? fun kv => decide (kv.1 = l.nextId)) = none :=
    List.find?_eq_none.mpr fun x hx => by
      simpa using Nat.ne_of_lt (hwf x hx)
  have hfreshkeys : ∀ kv ∈ l.jobs, kv.1 ≠ l.nextId := fun kv hk =>
    Nat.ne_of_lt (hwf kv hk)
  simp only [dispatch_process_remote, create_pending_job, hfail]
  simp only [update_job, get_job, create_job, List.find?_append, hfind,
    Option.none_or, List.find?_cons, decide_eq_true_eq, if_pos rfl,
    setEntry, List.map_append, List.map_cons, List.map_nil,
    map_setEntry_fresh _ _ _ hfreshkeys]
  simp only [applyJobUpdate, Option.map_some]
  refine ⟨trivial, trivial, trivial, ?_, ?_⟩ <;>
    simp [List.find?_append, hfind, Option.none_or, List.find?_cons]

/-- C1 witness: an always-failing backend at a concrete request — the
returned job is terminal with the process id of the request and inputs, and
the pending remote job is stored as failed. -/
theorem remote_submit_failure_falls_back_local_witness :
    ((dispatch_process_remote (fun _ => .error ()) (.jobj [("y", .jnum 2)])
        Ledger.empty "raster.zonal_stats" (.jobj [("x", .jnum 1)])).1).status
      = "succeeded"
    ∧ ((dispatch_process_remote (fun _ => .error ()) (.jobj [("y", .jnum 2)])
        Ledger.empty "raster.zonal_stats" (.jobj [("x", .jnum 1)])).1).processId
      = "raster.zonal_stats"
    ∧ ((dispatch_process_remote (fun _ => .error ()) (.jobj [("y", .jnum 2)])
        Ledger.empty "raster.zonal_stats" (.jobj [("x", .jnum 1)])).1).inputs
      = .jobj [("x", .jnum 1)]
    ∧ (get_job (dispatch_process_remote (fun _ => .error ())
        (.jobj [("y", .jnum 2)]) Ledger.empty "raster.zonal_stats"
        (.jobj [("x", .jnum 1)])).2 Ledger.empty.nextId).map Job.status
      = some "failed"
    ∧ ((get_job (dispatch_process_remote (fun _ => .error ())
        (.jobj [("y", .jnum 2)]) Ledger.empty "raster.zonal_stats"
        (.jobj [("x", .jnum 1)])).2 Ledger.empty.nextId).map
        fun j => j.execution.map Exec.source) = some (some "prefect") :=
  remote_submit_failure_falls_back_local (fun _ => .error ())
    (.jobj [("y", .jnum 2)]) Ledger.empty "raster.zonal_stats"
    (.jobj [("x", .jnum 1)])
    (fun kv h => absurd h (List.not_mem_nil kv)) rfl

end EoApi
